import Mathlib

/-!
Verification of the `udc-engine` deal-calculation pipeline (services/udc-engine).

This file gives a shallow embedding in Lean 4 of the parts of the Rust source
that the verified claims are about: the numeric primitives (rust_decimal
`Decimal` is modelled by `ℚ`, with the default `round_dp` strategy, which is
round-half-to-even, modelled exactly), the deal input data model, the pipeline
phases P0 (normalize), P1 (route), P2 (jurisdiction), P3 (profiles, with the
built-in state profiles), P4 (tax cipher), P5 (structure), P6 (cashflow), the
checksum stub of P7, and the money-factor conversions from `types/money.rs`.

Modelling conventions, each noted again at the definition it concerns:
* `Decimal` values are embedded as rationals; the arithmetic used by the
  embedded functions (addition, subtraction, multiplication, division by
  constants, min, max, round_dp) is exact on the rationals involved, so the
  embedding is faithful for the claims below.
* Functions whose Rust signature is `UdcResult<T>` but whose body can never
  return `Err` are embedded as total functions, with a comment at each.
* Write-only audit vectors (entries pushed for the audit trail, never read
  back by any computation) are dropped from the embedding; they do not
  influence any computed value.  Error messages are reduced to their
  structured part (field name or phase tag).
* Calls to the system clock (`chrono::Local::now`, `SystemTime::now`) are
  modelled by explicit parameters (`today : Date`, `now_nanos : ℕ`).
The arithmetic primitives of core `Rat` are marked irreducible, which blocks
`decide` on concrete runs of the embedded pipeline; they are re-marked
semireducible here (this changes only elaborator unfolding, not kernel
checking, and no proof depends on it beyond letting `decide` evaluate).
-/

set_option allowUnsafeReducibility true

attribute [semireducible] Rat.add Rat.mul Rat.inv Rat.div Rat.sub Rat.neg
  Rat.blt Rat.normalize Int.tdiv Int.fdiv Int.ediv Int.tmod Int.fmod
  Int.emod Int.pow Rat.floor Rat.ceil Rat.ofScientific

deriving instance DecidableEq for Except

/-! ## Rounding: rust_decimal `round_dp` (banker rounding, half to even) -/

/-- Round a rational to the nearest integer, ties to even
(the `MidpointNearestEven` strategy that `Decimal::round_dp` uses). -/
def rhe (x : ℚ) : ℤ :=
  if x - ⌊x⌋ < 1/2 then ⌊x⌋
  else if 1/2 < x - ⌊x⌋ then ⌊x⌋ + 1
  else if ⌊x⌋ % 2 = 0 then ⌊x⌋ else ⌊x⌋ + 1

/-- Round to `d` decimal places, banker rounding (`Decimal::round_dp(d)`). -/
def roundDp (d : ℕ) (x : ℚ) : ℚ := (rhe (x * 10 ^ d) : ℚ) / 10 ^ d

/-- `DecimalExt::round_money`: round to 2 decimal places, banker rounding. -/
def round2 (x : ℚ) : ℚ := roundDp 2 x

/-- `Decimal::abs`, written out so that concrete runs reduce (`|.|` on `ℚ`
elaborates through lattice instances that do not reduce). -/
def qabs (x : ℚ) : ℚ := if x < 0 then -x else x

theorem qabs_eq_abs (x : ℚ) : qabs x = |x| := by
  unfold qabs
  split_ifs with h
  · exact (abs_of_neg h).symm
  · exact (abs_of_nonneg (not_lt.mp h)).symm

theorem rhe_intCast (n : ℤ) : rhe (n : ℚ) = n := by
  simp [rhe]

theorem rhe_cases (x : ℚ) : rhe x = ⌊x⌋ ∨ rhe x = ⌊x⌋ + 1 := by
  unfold rhe; split_ifs <;> simp

theorem rhe_mono {x y : ℚ} (h : x ≤ y) : rhe x ≤ rhe y := by
  have hf : ⌊x⌋ ≤ ⌊y⌋ := Int.floor_mono h
  by_cases hef : ⌊x⌋ = ⌊y⌋
  · unfold rhe
    rw [hef]
    have hr : x - (⌊y⌋ : ℚ) ≤ y - (⌊y⌋ : ℚ) := by
      have : ((⌊y⌋ : ℚ)) = ((⌊y⌋ : ℚ)) := rfl
      linarith
    split_ifs <;> first | omega | linarith
  · have h1 : ⌊x⌋ + 1 ≤ ⌊y⌋ := by omega
    rcases rhe_cases x with hx | hx <;> rcases rhe_cases y with hy | hy <;> omega

theorem rhe_nonneg {x : ℚ} (h : 0 ≤ x) : 0 ≤ rhe x := by
  have := rhe_mono h
  rwa [show (0 : ℚ) = ((0 : ℤ) : ℚ) by norm_num, rhe_intCast] at this

theorem round2_mono {x y : ℚ} (h : x ≤ y) : round2 x ≤ round2 y := by
  unfold round2 roundDp
  have h1 : x * 10 ^ 2 ≤ y * 10 ^ 2 := by nlinarith
  have h2 := rhe_mono h1
  have h3 : ((rhe (x * 10 ^ 2) : ℤ) : ℚ) ≤ ((rhe (y * 10 ^ 2) : ℤ) : ℚ) := by
    exact_mod_cast h2
  have hp : (0 : ℚ) ≤ 10 ^ 2 := by norm_num
  exact div_le_div_of_nonneg_right h3 hp

theorem round2_nonneg {x : ℚ} (h : 0 ≤ x) : 0 ≤ round2 x := by
  unfold round2 roundDp
  have h1 : (0 : ℚ) ≤ x * 10 ^ 2 := by nlinarith
  have h2 := rhe_nonneg h1
  have h3 : (0 : ℚ) ≤ ((rhe (x * 10 ^ 2) : ℤ) : ℚ) := by exact_mod_cast h2
  exact div_nonneg h3 (by norm_num)

theorem round2_intCast (n : ℤ) : round2 (n : ℚ) = n := by
  unfold round2 roundDp
  have : (n : ℚ) * 10 ^ 2 = ((n * 10 ^ 2 : ℤ) : ℚ) := by push_cast; ring
  rw [this, rhe_intCast]
  push_cast
  exact mul_div_cancel_right₀ _ (by norm_num)

theorem round2_idem (x : ℚ) : round2 (round2 x) = round2 x := by
  unfold round2 roundDp
  have h1 : ((rhe (x * 10 ^ 2) : ℤ) : ℚ) / 10 ^ 2 * 10 ^ 2 = ((rhe (x * 10 ^ 2) : ℤ) : ℚ) := by
    field_simp
  rw [h1, rhe_intCast]

/-! ## Data model (types/mod.rs, types/deal_input.rs, types/rule_profile.rs)

String fields that are display-only (names, program codes, notes) and never
read by any embedded computation are omitted where noted; all fields read by
the pipeline are kept with their source names. -/

/-- `StateCode` (types/mod.rs): 50 states + DC + territories. -/
inductive StateCode where
  | AL | AK | AZ | AR | CA | CO | CT | DE | DC | FL
  | GA | HI | ID | IL | IN | IA | KS | KY | LA | ME
  | MD | MA | MI | MN | MS | MO | MT | NE | NV | NH
  | NJ | NM | NY | NC | ND | OH | OK | OR | PA | RI
  | SC | SD | TN | TX | UT | VT | VA | WA | WV | WI
  | WY | PR | VI | GU | AS | MP
deriving DecidableEq, Inhabited

/-- `DealType` (types/deal.rs). -/
inductive DealType where
  | cash | finance | lease
deriving DecidableEq, Inhabited

/-- `TaxType` (types/mod.rs). -/
inductive TaxType where
  | sales | use | tavt | hut | excise | none
deriving DecidableEq, Inhabited

/-- `LeaseTaxMode` (types/profiles.rs). -/
inductive LeaseTaxMode where
  | capitalizedCost | capCostUpfront | monthlyPayment | totalPayments
  | depreciationOnly | acquisitionTax | exempt
deriving DecidableEq, Inhabited

/-- `RebateType` (types/deal_input.rs). -/
inductive RebateType where
  | manufacturer | dealer | loyalty | military | collegeGrad
  | firstResponder | other
deriving DecidableEq, Inhabited

/-- `ProductType` (types/deal_input.rs). -/
inductive ProductType where
  | vsc | gap | tireWheel | appearance | maintenance | keyReplacement
  | theftProtection | windshield | dentProtection | creditLife
  | creditDisability | other
deriving DecidableEq, Inhabited

/-- `CustomerType` (types/deal_input.rs). -/
inductive CustomerType where
  | individual | business | fleetCommercial | government | nonProfit
deriving DecidableEq, Inhabited

/-- `CreditTier` (types/mod.rs). -/
inductive CreditTier where
  | tier1 | tier2 | tier3 | tier4 | tier5 | tier6
deriving DecidableEq, Inhabited

/-- `UdcError` (types/mod.rs), reduced to its structured context: free-form
messages are dropped, the validated field name / calculation phase is kept. -/
inductive UdcError where
  | validation (field : String)
  | calculation (phase : String)
  | profileNotFound (profileType : String) (identifier : String)
deriving DecidableEq, Inhabited

/-- `chrono::NaiveDate`, reduced to its calendar fields.  All arithmetic the
engine performs on dates (p6_cashflow `add_months` and friends) is embedded
below. -/
structure Date where
  year : Int
  month : Int
  day : Int
deriving DecidableEq, Inhabited

/-- `Rebate` (types/deal_input.rs); the display-only `id`, `name` and
`program_code` strings are omitted. -/
structure Rebate where
  amount : ℚ
  rebate_type : RebateType
  reduces_tax_basis : Bool
deriving DecidableEq, Inhabited

/-- `Product` (types/deal_input.rs); display-only `id`/`name` and the unused
`term_months`/`mileage_limit`/`deductible` options are omitted. -/
structure Product where
  price : ℚ
  cost : ℚ
  product_type : ProductType
  taxable : Bool
deriving DecidableEq, Inhabited

/-- `OtherFee` (types/deal_input.rs). -/
structure OtherFee where
  name : String
  amount : ℚ
  dealer_fee : Bool
  taxable : Bool
deriving DecidableEq, Inhabited

/-- `DealFees` (types/deal_input.rs). -/
structure DealFees where
  doc_fee : ℚ := 0
  title_fee : ℚ := 0
  registration_fee : ℚ := 0
  plate_fee : ℚ := 0
  inspection_fee : ℚ := 0
  electronic_filing_fee : ℚ := 0
  tire_fee : ℚ := 0
  smog_fee : ℚ := 0
  destination_fee : ℚ := 0
  dealer_handling_fee : ℚ := 0
  acquisition_fee : ℚ := 0
  disposition_fee : ℚ := 0
  other_fees : List OtherFee := []
deriving DecidableEq, Inhabited

/-- `DealFees::total_government_fees`. -/
def DealFees.total_government_fees (f : DealFees) : ℚ :=
  f.title_fee + f.registration_fee + f.plate_fee + f.inspection_fee
    + f.tire_fee + f.smog_fee

/-- `DealFees::total_dealer_fees`. -/
def DealFees.total_dealer_fees (f : DealFees) : ℚ :=
  f.doc_fee + f.electronic_filing_fee + f.destination_fee
    + f.dealer_handling_fee
    + ((f.other_fees.filter (fun o => o.dealer_fee)).map (fun o => o.amount)).sum

/-- `DealFees::total`. -/
def DealFees.total (f : DealFees) : ℚ :=
  f.doc_fee + f.title_fee + f.registration_fee + f.plate_fee
    + f.inspection_fee + f.electronic_filing_fee + f.tire_fee + f.smog_fee
    + f.destination_fee + f.dealer_handling_fee + f.acquisition_fee
    + ((f.other_fees.map (fun o => o.amount)).sum)

/-- `CustomerInfo` (types/deal_input.rs); the unused score/certificate and
locality strings are omitted. -/
structure CustomerInfo where
  customer_type : CustomerType := .individual
  credit_tier : Option CreditTier := Option.none
  tax_exempt : Bool := false
  is_military : Bool := false
  zip_code : Option String := Option.none
deriving DecidableEq, Inhabited

/-- `FinanceParams` (types/deal_input.rs). -/
structure FinanceParams where
  term_months : ℕ
  apr : ℚ
  lender_id : Option String := Option.none
  buy_rate : Option ℚ := Option.none
  max_reserve_points : Option ℚ := Option.none
  deferred_first_payment : Bool := false
  days_to_first_payment : Option ℕ := Option.none
deriving DecidableEq, Inhabited

/-- `LeaseParams` (types/deal_input.rs). -/
structure LeaseParams where
  term_months : ℕ
  money_factor : ℚ
  residual_percent : ℚ
  annual_miles : ℕ
  excess_mileage_rate : Option ℚ := Option.none
  lessor_id : Option String := Option.none
  msd_count : ℕ := 0
  security_deposit : Option ℚ := Option.none
  cap_acquisition_fee : Bool := true
  cap_cost_reduction : ℚ := 0
deriving DecidableEq, Inhabited

/-- `DealInput` (types/deal_input.rs). -/
structure DealInput where
  deal_type : DealType
  vehicle_price : ℚ
  trade_in_value : Option ℚ := Option.none
  trade_in_payoff : Option ℚ := Option.none
  cash_down : ℚ := 0
  rebates : List Rebate := []
  products : List Product := []
  fees : DealFees
  home_state : StateCode
  transaction_state : StateCode
  garaging_state : Option StateCode := Option.none
  customer : CustomerInfo
  finance_params : Option FinanceParams := Option.none
  lease_params : Option LeaseParams := Option.none
  deal_date : Option Date := Option.none
  first_payment_date : Option Date := Option.none
deriving DecidableEq, Inhabited

/-- `DealInput::total_rebates`. -/
def DealInput.total_rebates (d : DealInput) : ℚ :=
  (d.rebates.map (fun r => r.amount)).sum

/-- `DealInput::total_products`. -/
def DealInput.total_products (d : DealInput) : ℚ :=
  (d.products.map (fun p => p.price)).sum

/-- `TaxRates` (types/rule_profile.rs); the two county/city lookup keys are
never read by the engine and are omitted. -/
structure TaxRates where
  state_rate : ℚ := 0
  max_local_rate : Option ℚ := Option.none
  default_combined_rate : ℚ := 0
  district_rate : ℚ := 0
  flat_tax_amount : Option ℚ := Option.none
  tavt_rate : Option ℚ := Option.none
  hut_rate : Option ℚ := Option.none
  excise_rate : Option ℚ := Option.none
deriving DecidableEq, Inhabited

/-- `BaseRules` (types/rule_profile.rs), with the serde defaults of the
source as Lean field defaults. -/
structure BaseRules where
  trade_in_reduces_basis : Bool := true
  max_trade_in_credit : Option ℚ := Option.none
  rebates_reduce_basis : Bool := false
  rebate_types_reduce_basis : List String := []
  dealer_discount_reduces_basis : Bool := true
  doc_fee_taxable : Bool := true
  destination_taxable : Bool := true
  dealer_accessories_taxable : Bool := true
  max_taxable_amount : Option ℚ := Option.none
  min_taxable_amount : Option ℚ := Option.none
  use_book_value : Bool := false
deriving DecidableEq, Inhabited

/-- `AncillaryRules` (types/rule_profile.rs). -/
structure AncillaryRules where
  vsc_taxable : Bool := false
  gap_taxable : Bool := false
  tire_wheel_taxable : Bool := false
  appearance_taxable : Bool := false
  maintenance_taxable : Bool := false
  key_replacement_taxable : Bool := false
  theft_taxable : Bool := false
  windshield_taxable : Bool := false
  dent_taxable : Bool := false
  credit_life_taxable : Bool := false
  credit_disability_taxable : Bool := false
  default_product_taxable : Bool := false
  government_fees_taxable : Bool := false
  registration_taxable : Bool := false
  title_fee_taxable : Bool := false
deriving DecidableEq, Inhabited

/-- `ReciprocityRules` (types/rule_profile.rs); the per-state
`PartialCreditState` override list is never read by the engine (only
`max_credit_rate` is consulted) and is omitted. -/
structure ReciprocityRules where
  offers_reciprocity : Bool := false
  full_credit_states : List StateCode := []
  no_credit_states : List StateCode := []
  max_credit_rate : Option ℚ := Option.none
  use_higher_rate : Bool := false
deriving DecidableEq, Inhabited

/-- `ProfileMeta` (types/rule_profile.rs); free-form strings omitted except
the version tag. -/
structure ProfileMeta where
  version : String := "1.0.0"
  effective_date : Date := ⟨2024, 1, 1⟩
  expiration_date : Option Date := Option.none
  active : Bool := true
deriving DecidableEq, Inhabited

/-- `RuleProfile` (types/rule_profile.rs). -/
structure RuleProfile where
  state_code : StateCode
  mode : DealType
  tax_type : TaxType
  rates : TaxRates
  base_rules : BaseRules
  ancillaries : AncillaryRules
  reciprocity : ReciprocityRules
  lease_tax_mode : Option LeaseTaxMode := Option.none
  meta : ProfileMeta
deriving DecidableEq, Inhabited

/-! ## P0 - Normalize (phases/p0_normalize.rs)

The source validates each field before rounding it; validations read only
pre-rounding values and the rounding of distinct fields is independent, so
the per-collection loops (validate each element, then round it) are embedded
as an `all` check followed by a `map`.  This preserves both the success
semantics and the first-failure error ordering of the source, except that a
failing element reports the collection-level field name instead of an
element-indexed one. -/

/-- `NormalizedDealInput` (phases/p0_normalize.rs). -/
structure NormalizedDealInput where
  inner : DealInput
  net_trade : ℚ
  total_rebates : ℚ
  total_taxable_products : ℚ
  total_non_taxable_products : ℚ
  total_fees : ℚ
  has_negative_equity : Bool
deriving DecidableEq, Inhabited

/-- `compute_net_trade` (phases/p0_normalize.rs). -/
def compute_net_trade (input : DealInput) : ℚ :=
  input.trade_in_value.getD 0 - input.trade_in_payoff.getD 0

/-- `compute_product_totals` (phases/p0_normalize.rs): (taxable, non-taxable). -/
def compute_product_totals (input : DealInput) : ℚ × ℚ :=
  (((input.products.filter (fun p => p.taxable)).map (fun p => p.price)).sum,
   ((input.products.filter (fun p => !p.taxable)).map (fun p => p.price)).sum)

/-- `set_defaults` (phases/p0_normalize.rs); `today` models
`chrono::Local::now().date_naive()`. -/
def set_defaults (today : Date) (i : DealInput) : DealInput :=
  { i with
    deal_date := some (i.deal_date.getD today),
    garaging_state := some (i.garaging_state.getD i.home_state) }

/-- `validate_finance_params` (phases/p0_normalize.rs). -/
def validate_finance_params (input : DealInput) : Except UdcError Unit :=
  match input.finance_params with
  | Option.none => .error (.validation "finance_params")
  | Option.some p =>
    if p.term_months < 12 ∨ 84 < p.term_months then
      .error (.validation "finance_params.term_months")
    else if p.apr < 0 ∨ (0.30 : ℚ) < p.apr then
      .error (.validation "finance_params.apr")
    else .ok ()

/-- `validate_lease_params` (phases/p0_normalize.rs). -/
def validate_lease_params (input : DealInput) : Except UdcError Unit :=
  match input.lease_params with
  | Option.none => .error (.validation "lease_params")
  | Option.some p =>
    if p.term_months < 24 ∨ 60 < p.term_months then
      .error (.validation "lease_params.term_months")
    else if p.money_factor ≤ 0 ∨ (0.01 : ℚ) < p.money_factor then
      .error (.validation "lease_params.money_factor")
    else if p.residual_percent ≤ 0 ∨ 1 ≤ p.residual_percent then
      .error (.validation "lease_params.residual_percent")
    else if p.annual_miles < 5000 ∨ 25000 < p.annual_miles then
      .error (.validation "lease_params.annual_miles")
    else .ok ()

/-- Rebate loop of `normalize_deal_input`: validate every amount
non-negative, then round every amount. -/
def normalize_rebates (rs : List Rebate) : Except UdcError (List Rebate) :=
  if rs.all (fun r => decide (0 ≤ r.amount)) then
    .ok (rs.map (fun r => { r with amount := round2 r.amount }))
  else .error (.validation "rebate.amount")

/-- Product loop of `normalize_deal_input`: validate every price
non-negative, then round price and cost. -/
def normalize_products (ps : List Product) : Except UdcError (List Product) :=
  if ps.all (fun p => decide (0 ≤ p.price)) then
    .ok (ps.map (fun p => { p with price := round2 p.price, cost := round2 p.cost }))
  else .error (.validation "product.price")

/-- `normalize_fees` (phases/p0_normalize.rs): validate the eleven named fee
slots and every extra fee non-negative, then round the eleven named slots
(`disposition_fee` and the extra fees are neither validated as a slot nor
rounded in the source). -/
def normalize_fees (f : DealFees) : Except UdcError DealFees :=
  if f.doc_fee < 0 then .error (.validation "fees.doc_fee")
  else if f.title_fee < 0 then .error (.validation "fees.title_fee")
  else if f.registration_fee < 0 then .error (.validation "fees.registration_fee")
  else if f.plate_fee < 0 then .error (.validation "fees.plate_fee")
  else if f.inspection_fee < 0 then .error (.validation "fees.inspection_fee")
  else if f.electronic_filing_fee < 0 then .error (.validation "fees.electronic_filing_fee")
  else if f.tire_fee < 0 then .error (.validation "fees.tire_fee")
  else if f.smog_fee < 0 then .error (.validation "fees.smog_fee")
  else if f.destination_fee < 0 then .error (.validation "fees.destination_fee")
  else if f.dealer_handling_fee < 0 then .error (.validation "fees.dealer_handling_fee")
  else if f.acquisition_fee < 0 then .error (.validation "fees.acquisition_fee")
  else if !(f.other_fees.all (fun o => decide (0 ≤ o.amount))) then
    .error (.validation "fees.other")
  else
    .ok { f with
      doc_fee := round2 f.doc_fee,
      title_fee := round2 f.title_fee,
      registration_fee := round2 f.registration_fee,
      plate_fee := round2 f.plate_fee,
      inspection_fee := round2 f.inspection_fee,
      electronic_filing_fee := round2 f.electronic_filing_fee,
      tire_fee := round2 f.tire_fee,
      smog_fee := round2 f.smog_fee,
      destination_fee := round2 f.destination_fee,
      dealer_handling_fee := round2 f.dealer_handling_fee,
      acquisition_fee := round2 f.acquisition_fee }

/-- `normalize_deal_input` (phases/p0_normalize.rs), P0 of the pipeline. -/
def normalize_deal_input (today : Date) (input : DealInput) :
    Except UdcError NormalizedDealInput :=
  if input.vehicle_price ≤ 0 then .error (.validation "vehicle_price")
  else if (10000000 : ℚ) < input.vehicle_price then .error (.validation "vehicle_price")
  else if input.cash_down < 0 then .error (.validation "cash_down")
  else
    match normalize_rebates input.rebates with
    | .error e => .error e
    | .ok rebates =>
      match normalize_products input.products with
      | .error e => .error e
      | .ok products =>
        match normalize_fees input.fees with
        | .error e => .error e
        | .ok fees =>
          let i1 : DealInput := { input with
            vehicle_price := round2 input.vehicle_price,
            cash_down := round2 input.cash_down,
            trade_in_value := input.trade_in_value.map round2,
            trade_in_payoff := input.trade_in_payoff.map round2,
            rebates := rebates, products := products, fees := fees }
          match (match input.deal_type with
                 | .finance => validate_finance_params i1
                 | .lease => validate_lease_params i1
                 | .cash => .ok ()) with
          | .error e => .error e
          | .ok _ =>
            let net_trade := compute_net_trade i1
            let prod_totals := compute_product_totals i1
            .ok { inner := set_defaults today i1
                  net_trade := net_trade
                  total_rebates := i1.total_rebates
                  total_taxable_products := prod_totals.1
                  total_non_taxable_products := prod_totals.2
                  total_fees := i1.fees.total
                  has_negative_equity := decide (net_trade < 0) }

/-! ## P1 - Mode routing (phases/p1_mode_routing.rs) -/

/-- `CalculationMode` (phases/p1_mode_routing.rs). -/
inductive CalculationMode where
  | cash | finance | lease
deriving DecidableEq, Inhabited

/-- `From<DealType> for CalculationMode`. -/
def CalculationMode.ofDealType : DealType → CalculationMode
  | .cash => .cash
  | .finance => .finance
  | .lease => .lease

/-- `RoutedDeal` (phases/p1_mode_routing.rs). -/
structure RoutedDeal where
  input : NormalizedDealInput
  mode : CalculationMode
deriving DecidableEq, Inhabited

/-- `route_deal` (phases/p1_mode_routing.rs); the source always returns `Ok`,
so the embedding is total. -/
def route_deal (input : NormalizedDealInput) : RoutedDeal :=
  { input := input, mode := CalculationMode.ofDealType input.inner.deal_type }

/-! ## P2 - Jurisdiction (phases/p2_jurisdiction.rs) -/

/-- `JurisdictionFlags` (phases/p2_jurisdiction.rs). -/
structure JurisdictionFlags where
  no_sales_tax_registration : Bool := false
  military_exception : Bool := false
  commercial_registration : Bool := false
  split_registration : Bool := false
deriving DecidableEq, Inhabited

/-- `JurisdictionContext` (phases/p2_jurisdiction.rs). -/
structure JurisdictionContext where
  home_state : StateCode
  transaction_state : StateCode
  garaging_state : StateCode
  governing_state : StateCode
  is_interstate : Bool
  secondary_state : Option StateCode
  flags : JurisdictionFlags
deriving DecidableEq, Inhabited

/-- `JurisdictionResolvedDeal` (phases/p2_jurisdiction.rs). -/
structure JurisdictionResolvedDeal where
  deal : RoutedDeal
  jurisdiction : JurisdictionContext
deriving DecidableEq, Inhabited

/-- `NO_SALES_TAX_STATES` (phases/p2_jurisdiction.rs). -/
def NO_SALES_TAX_STATES : List StateCode := [.MT, .OR, .NH, .DE]

/-- `determine_lease_governing_state` (phases/p2_jurisdiction.rs). -/
def determine_lease_governing_state (home transaction garaging : StateCode) :
    StateCode × Option StateCode :=
  let garaging_tax_states : List StateCode := [.CA, .IL, .MA, .NJ, .NY, .PA]
  let transaction_tax_states : List StateCode := [.TX, .FL]
  if transaction ∈ transaction_tax_states then
    (transaction, if home ≠ transaction then some home else Option.none)
  else if garaging ∈ garaging_tax_states then
    (garaging, if transaction ≠ garaging then some transaction else Option.none)
  else
    (home, if transaction ≠ home then some transaction else Option.none)

/-- `determine_governing_state` (phases/p2_jurisdiction.rs). -/
def determine_governing_state (home transaction garaging : StateCode)
    (deal_type : DealType) : StateCode × Option StateCode :=
  if deal_type = .lease then
    determine_lease_governing_state home transaction garaging
  else if home = transaction then
    (home, Option.none)
  else
    (home, some transaction)

/-- `build_jurisdiction_flags` (phases/p2_jurisdiction.rs). -/
def build_jurisdiction_flags (home garaging : StateCode)
    (customer : CustomerInfo) : JurisdictionFlags :=
  { no_sales_tax_registration := home ∈ NO_SALES_TAX_STATES
    military_exception := customer.is_military
    commercial_registration :=
      customer.customer_type = .fleetCommercial ∨ customer.customer_type = .business
    split_registration := home ≠ garaging }

/-- `resolve_jurisdiction` (phases/p2_jurisdiction.rs); the source always
returns `Ok`, so the embedding is total. -/
def resolve_jurisdiction (deal : RoutedDeal) : JurisdictionResolvedDeal :=
  let input := deal.input.inner
  let home_state := input.home_state
  let transaction_state := input.transaction_state
  let garaging_state := input.garaging_state.getD home_state
  let is_interstate := home_state ≠ transaction_state
  let gov := determine_governing_state home_state transaction_state
    garaging_state input.deal_type
  { deal := deal
    jurisdiction :=
      { home_state := home_state
        transaction_state := transaction_state
        garaging_state := garaging_state
        governing_state := gov.1
        is_interstate := is_interstate
        secondary_state := gov.2
        flags := build_jurisdiction_flags home_state garaging_state input.customer } }

/-! ## P3 - Profile loading (phases/p3_profiles.rs) -/

/-- `PaymentRounding` (phases/p3_profiles.rs). -/
inductive PaymentRounding where
  | nearestCent | roundUp | roundDown
deriving DecidableEq, Inhabited

/-- `ProgramProfile` (phases/p3_profiles.rs, simplified program profile). -/
structure ProgramProfile where
  lender_id : String
  max_term : ℕ
  max_ltv : Option ℚ
  payment_rounding : PaymentRounding
deriving DecidableEq, Inhabited

/-- `ProductTaxRule` (phases/p3_profiles.rs). -/
structure ProductTaxRule where
  product_type : String
  taxable : Bool
  capitalizable : Bool
deriving DecidableEq, Inhabited

/-- `ProfileContext` (phases/p3_profiles.rs). -/
structure ProfileContext where
  primary_rules : RuleProfile
  secondary_rules : Option RuleProfile
  program : Option ProgramProfile
  product_rules : List ProductTaxRule
deriving DecidableEq, Inhabited

/-- `ProfileLoadedDeal` (phases/p3_profiles.rs). -/
structure ProfileLoadedDeal where
  deal : JurisdictionResolvedDeal
  profiles : ProfileContext
deriving DecidableEq, Inhabited

/-- The lowercase rendering of `format!("{:?}", product_type)` used by
`build_product_tax_rules`. -/
def ProductType.debugLowercase : ProductType → String
  | .vsc => "vsc"
  | .gap => "gap"
  | .tireWheel => "tirewheel"
  | .appearance => "appearance"
  | .maintenance => "maintenance"
  | .keyReplacement => "keyreplacement"
  | .theftProtection => "theftprotection"
  | .windshield => "windshield"
  | .dentProtection => "dentprotection"
  | .creditLife => "creditlife"
  | .creditDisability => "creditdisability"
  | .other => "other"

/-- `AncillaryRules::is_product_taxable` (types/rule_profile.rs). -/
def AncillaryRules.is_product_taxable (a : AncillaryRules) (product_type : String) : Bool :=
  if product_type = "vsc" ∨ product_type = "vehicle_service_contract"
      ∨ product_type = "extended_warranty" then a.vsc_taxable
  else if product_type = "gap" ∨ product_type = "gap_insurance" then a.gap_taxable
  else if product_type = "tire_wheel" ∨ product_type = "tirewheel" then a.tire_wheel_taxable
  else if product_type = "appearance" ∨ product_type = "paint"
      ∨ product_type = "interior" then a.appearance_taxable
  else if product_type = "maintenance" ∨ product_type = "prepaid_maintenance" then
    a.maintenance_taxable
  else if product_type = "key" ∨ product_type = "key_replacement" then
    a.key_replacement_taxable
  else if product_type = "theft" ∨ product_type = "theft_protection"
      ∨ product_type = "etch" then a.theft_taxable
  else if product_type = "windshield" then a.windshield_taxable
  else if product_type = "dent" ∨ product_type = "pdr"
      ∨ product_type = "dent_protection" then a.dent_taxable
  else if product_type = "credit_life" then a.credit_life_taxable
  else if product_type = "credit_disability" then a.credit_disability_taxable
  else a.default_product_taxable

/-- `georgia_profile` (phases/p3_profiles.rs). -/
def georgia_profile (deal_type : DealType) : RuleProfile :=
  { state_code := .GA
    mode := deal_type
    tax_type := .tavt
    rates := { state_rate := 0, tavt_rate := some (0.0675 : ℚ) }
    base_rules := { trade_in_reduces_basis := true, rebates_reduce_basis := true }
    ancillaries := {}
    reciprocity := { offers_reciprocity := true }
    lease_tax_mode := some .capCostUpfront
    meta := { version := "2024.1" } }

/-- `north_carolina_profile` (phases/p3_profiles.rs). -/
def north_carolina_profile (deal_type : DealType) : RuleProfile :=
  { state_code := .NC
    mode := deal_type
    tax_type := .hut
    rates := { state_rate := 0, hut_rate := some (0.03 : ℚ), flat_tax_amount := Option.none }
    base_rules := { trade_in_reduces_basis := true, rebates_reduce_basis := false,
                    max_taxable_amount := some (80000 : ℚ) }
    ancillaries := {}
    reciprocity := { offers_reciprocity := true }
    lease_tax_mode := some .monthlyPayment
    meta := { version := "2024.1" } }

/-- `west_virginia_profile` (phases/p3_profiles.rs). -/
def west_virginia_profile (deal_type : DealType) : RuleProfile :=
  { state_code := .WV
    mode := deal_type
    tax_type := .excise
    rates := { state_rate := (0.06 : ℚ), excise_rate := some (0.05 : ℚ),
               max_local_rate := some (0.01 : ℚ) }
    base_rules := { trade_in_reduces_basis := true,
                    max_trade_in_credit := some (25000 : ℚ) }
    ancillaries := {}
    reciprocity := {}
    lease_tax_mode := some .monthlyPayment
    meta := {} }

/-- `texas_profile` (phases/p3_profiles.rs). -/
def texas_profile (deal_type : DealType) : RuleProfile :=
  { state_code := .TX
    mode := deal_type
    tax_type := .sales
    rates := { state_rate := (0.0625 : ℚ), max_local_rate := some (0.02 : ℚ),
               default_combined_rate := (0.0825 : ℚ) }
    base_rules := { trade_in_reduces_basis := true, rebates_reduce_basis := false,
                    doc_fee_taxable := true }
    ancillaries := { vsc_taxable := false, gap_taxable := false }
    reciprocity := { offers_reciprocity := true, use_higher_rate := false }
    lease_tax_mode := some .monthlyPayment
    meta := { version := "2024.1" } }

/-- `california_profile` (phases/p3_profiles.rs). -/
def california_profile (deal_type : DealType) : RuleProfile :=
  { state_code := .CA
    mode := deal_type
    tax_type := .sales
    rates := { state_rate := (0.0725 : ℚ), max_local_rate := some (0.0275 : ℚ),
               default_combined_rate := (0.0825 : ℚ) }
    base_rules := { trade_in_reduces_basis := false, rebates_reduce_basis := true,
                    doc_fee_taxable := false }
    ancillaries := { vsc_taxable := false, gap_taxable := false }
    reciprocity := { offers_reciprocity := true, max_credit_rate := some (0.0725 : ℚ) }
    lease_tax_mode := some .monthlyPayment
    meta := { version := "2024.1" } }

/-- `florida_profile` (phases/p3_profiles.rs). -/
def florida_profile (deal_type : DealType) : RuleProfile :=
  { state_code := .FL
    mode := deal_type
    tax_type := .sales
    rates := { state_rate := (0.06 : ℚ), max_local_rate := some (0.015 : ℚ),
               default_combined_rate := (0.07 : ℚ) }
    base_rules := { trade_in_reduces_basis := true, rebates_reduce_basis := true }
    ancillaries := { vsc_taxable := true, gap_taxable := false }
    reciprocity := { offers_reciprocity := true }
    lease_tax_mode := some .monthlyPayment
    meta := {} }

/-- `new_york_profile` (phases/p3_profiles.rs). -/
def new_york_profile (deal_type : DealType) : RuleProfile :=
  { state_code := .NY
    mode := deal_type
    tax_type := .sales
    rates := { state_rate := (0.04 : ℚ), max_local_rate := some (0.045 : ℚ),
               default_combined_rate := (0.08 : ℚ) }
    base_rules := { trade_in_reduces_basis := true, rebates_reduce_basis := true }
    ancillaries := { vsc_taxable := true }
    reciprocity := { offers_reciprocity := true }
    lease_tax_mode := some .capCostUpfront
    meta := {} }

/-- `no_tax_state_profile` (phases/p3_profiles.rs). -/
def no_tax_state_profile (state : StateCode) (deal_type : DealType) : RuleProfile :=
  { state_code := state
    mode := deal_type
    tax_type := .none
    rates := { state_rate := 0 }
    base_rules := {}
    ancillaries := {}
    reciprocity := {}
    lease_tax_mode := some .exempt
    meta := {} }

/-- `default_profile` (phases/p3_profiles.rs). -/
def default_profile (state : StateCode) (deal_type : DealType) : RuleProfile :=
  { state_code := state
    mode := deal_type
    tax_type := .sales
    rates := { state_rate := (0.06 : ℚ), default_combined_rate := (0.07 : ℚ) }
    base_rules := { trade_in_reduces_basis := true, rebates_reduce_basis := false }
    ancillaries := {}
    reciprocity := { offers_reciprocity := true }
    lease_tax_mode := some .monthlyPayment
    meta := { version := "default" } }

/-- `get_builtin_profile` (phases/p3_profiles.rs); the source wraps every arm
in `Ok`, so the embedding is total. -/
def get_builtin_profile (state : StateCode) (deal_type : DealType) : RuleProfile :=
  match state with
  | .GA => georgia_profile deal_type
  | .NC => north_carolina_profile deal_type
  | .WV => west_virginia_profile deal_type
  | .TX => texas_profile deal_type
  | .CA => california_profile deal_type
  | .FL => florida_profile deal_type
  | .NY => new_york_profile deal_type
  | .MT => no_tax_state_profile .MT deal_type
  | .OR => no_tax_state_profile .OR deal_type
  | .NH => no_tax_state_profile .NH deal_type
  | .DE => no_tax_state_profile .DE deal_type
  | s => default_profile s deal_type

/-- `load_program_profile` (phases/p3_profiles.rs); always `Ok` in the
source, total here. -/
def load_program_profile (input : DealInput) : Option ProgramProfile :=
  let lender_id :=
    match input.deal_type with
    | .finance => input.finance_params.bind (fun p => p.lender_id)
    | .lease => input.lease_params.bind (fun p => p.lessor_id)
    | .cash => Option.none
  match lender_id with
  | Option.some id =>
    some { lender_id := id, max_term := 84, max_ltv := some (1.25 : ℚ),
           payment_rounding := .nearestCent }
  | Option.none => Option.none

/-- `build_product_tax_rules` (phases/p3_profiles.rs). -/
def build_product_tax_rules (rules : RuleProfile) (products : List Product) :
    List ProductTaxRule :=
  products.map (fun p =>
    let product_type := p.product_type.debugLowercase
    { product_type := product_type
      taxable := rules.ancillaries.is_product_taxable product_type
      capitalizable := true })

/-- `load_profiles` (phases/p3_profiles.rs); with the built-in profile table
every lookup succeeds, so the embedding is total. -/
def load_profiles (deal : JurisdictionResolvedDeal) : ProfileLoadedDeal :=
  let jurisdiction := deal.jurisdiction
  let input := deal.deal.input.inner
  let primary_rules := get_builtin_profile jurisdiction.governing_state input.deal_type
  let secondary_rules :=
    jurisdiction.secondary_state.map (fun s => get_builtin_profile s input.deal_type)
  { deal := deal
    profiles :=
      { primary_rules := primary_rules
        secondary_rules := secondary_rules
        program := load_program_profile input
        product_rules := build_product_tax_rules primary_rules input.products } }

/-! ## P4 - Tax cipher (phases/p4_tax_cipher.rs)

The audit vector threaded through the source functions is write-only (its
entries are never read by any computation), so it is dropped here.  Every
helper of `calculate_tax` has Rust signature `UdcResult<_>` but returns `Ok`
on every path, so the helpers are embedded as total functions; the only
fallible step of `calculate_tax` is `validate_tax_invariants`. -/

/-- `TaxBaseBreakdown` (phases/p4_tax_cipher.rs). -/
structure TaxBaseBreakdown where
  selling_price : ℚ
  taxable_fees : ℚ
  taxable_products : ℚ
  trade_credit_applied : ℚ
  rebates_applied : ℚ
  adjustments : ℚ
  cap_applied : Option String
deriving DecidableEq, Inhabited

/-- `TaxLevel` (phases/p4_tax_cipher.rs). -/
inductive TaxLevel where
  | state | county | city | district | special
deriving DecidableEq, Inhabited

/-- `TaxComponent` (phases/p4_tax_cipher.rs). -/
structure TaxComponent where
  name : String
  level : TaxLevel
  rate : ℚ
  base : ℚ
  amount : ℚ
deriving DecidableEq, Inhabited

/-- `SpecialTax` (phases/p4_tax_cipher.rs). -/
structure SpecialTax where
  tax_type : TaxType
  name : String
  base : ℚ
  rate : ℚ
  amount : ℚ
  cap_applied : Option ℚ
deriving DecidableEq, Inhabited

/-- `TaxCalculation` (phases/p4_tax_cipher.rs), without the write-only audit
vector. -/
structure TaxCalculation where
  tax_base : ℚ
  base_breakdown : TaxBaseBreakdown
  primary_tax : ℚ
  tax_type : TaxType
  effective_rate : ℚ
  reciprocity_credit : ℚ
  net_tax : ℚ
  components : List TaxComponent
  special_tax : Option SpecialTax
deriving DecidableEq, Inhabited

/-- `TaxComputedDeal` (phases/p4_tax_cipher.rs). -/
structure TaxComputedDeal where
  deal : ProfileLoadedDeal
  tax : TaxCalculation
deriving DecidableEq, Inhabited

/-- `calculate_taxable_fees` (phases/p4_tax_cipher.rs).  Note that the
dealer handling fee is added unconditionally: the source consults no rule
flag for it. -/
def calculate_taxable_fees (fees : DealFees) (rules : RuleProfile) : ℚ :=
  (if rules.base_rules.doc_fee_taxable then fees.doc_fee else 0)
    + (if rules.base_rules.destination_taxable then fees.destination_fee else 0)
    + fees.dealer_handling_fee
    + (if rules.ancillaries.registration_taxable then fees.registration_fee else 0)
    + (if rules.ancillaries.title_fee_taxable then fees.title_fee else 0)
    + ((fees.other_fees.filter (fun o => o.taxable)).map (fun o => o.amount)).sum

/-- `build_tax_base` (phases/p4_tax_cipher.rs); always `Ok` in the source,
total here.  Note that `base_rules.min_taxable_amount` is never consulted. -/
def build_tax_base (deal : ProfileLoadedDeal) : TaxBaseBreakdown × ℚ :=
  let input := deal.deal.deal.input.inner
  let rules := deal.profiles.primary_rules
  let selling_price := input.vehicle_price
  let taxable_fees := calculate_taxable_fees input.fees rules
  let taxable_products :=
    ((input.products.filter (fun p => p.taxable)).map (fun p => p.price)).sum
  let base0 := selling_price + taxable_fees + taxable_products
  let trade_credit_applied :=
    if rules.base_rules.trade_in_reduces_basis then
      let gross_credit := input.trade_in_value.getD 0
      let credit :=
        match rules.base_rules.max_trade_in_credit with
        | some cap => min gross_credit cap
        | Option.none => gross_credit
      max (min credit base0) 0
    else 0
  let base1 := if 0 < trade_credit_applied then base0 - trade_credit_applied else base0
  let rebates_applied :=
    if rules.base_rules.rebates_reduce_basis then
      min input.total_rebates base1
    else 0
  let base2 := if 0 < rebates_applied then base1 - rebates_applied else base1
  let capped :=
    match rules.base_rules.max_taxable_amount with
    | some m => if m < base2 then (m, some "capped per state rule") else (base2, Option.none)
    | Option.none => (base2, (Option.none : Option String))
  let base3 := max capped.1 0
  ({ selling_price := selling_price
     taxable_fees := taxable_fees
     taxable_products := taxable_products
     trade_credit_applied := trade_credit_applied
     rebates_applied := rebates_applied
     adjustments := 0
     cap_applied := capped.2 },
   round2 base3)

/-- `calculate_standard_tax` (phases/p4_tax_cipher.rs); always `Ok` in the
source, total here.  Returns (components, primary tax, effective rate).
The display-only state-code prefix of the state component name is dropped. -/
def calculate_standard_tax (deal : ProfileLoadedDeal) (base : ℚ) :
    List TaxComponent × ℚ × ℚ :=
  let rules := deal.profiles.primary_rules
  let rates := rules.rates
  let state_part : List TaxComponent × ℚ × ℚ :=
    if 0 < rates.state_rate then
      let state_tax := round2 (base * rates.state_rate)
      ([{ name := "State Tax", level := .state, rate := rates.state_rate,
          base := base, amount := state_tax }],
       state_tax, rates.state_rate)
    else ([], 0, 0)
  let local_rate := rates.default_combined_rate - rates.state_rate
  let local_part : List TaxComponent × ℚ × ℚ :=
    if 0 < local_rate then
      let local_tax := round2 (base * local_rate)
      ([{ name := "Local Tax", level := .county, rate := local_rate,
          base := base, amount := local_tax }],
       local_tax, local_rate)
    else ([], 0, 0)
  let district_part : List TaxComponent × ℚ × ℚ :=
    if 0 < rates.district_rate then
      let district_tax := round2 (base * rates.district_rate)
      ([{ name := "District Tax", level := .district, rate := rates.district_rate,
          base := base, amount := district_tax }],
       district_tax, rates.district_rate)
    else ([], 0, 0)
  (state_part.1 ++ local_part.1 ++ district_part.1,
   state_part.2.1 + local_part.2.1 + district_part.2.1,
   state_part.2.2 + local_part.2.2 + district_part.2.2)

/-- `calculate_tavt` (phases/p4_tax_cipher.rs); always `Ok`, total here. -/
def calculate_tavt (deal : ProfileLoadedDeal) (base : ℚ) : TaxType × Option SpecialTax :=
  let rules := deal.profiles.primary_rules
  let rate := rules.rates.tavt_rate.getD (0.0675 : ℚ)
  let tax_amount := round2 (base * rate)
  (.tavt, some { tax_type := .tavt, name := "Georgia TAVT", base := base,
                 rate := rate, amount := tax_amount, cap_applied := Option.none })

/-- `calculate_hut` (phases/p4_tax_cipher.rs); always `Ok`, total here. -/
def calculate_hut (deal : ProfileLoadedDeal) (base : ℚ) : TaxType × Option SpecialTax :=
  let rules := deal.profiles.primary_rules
  let rate := rules.rates.hut_rate.getD (0.03 : ℚ)
  let cap : ℚ := 80000
  let taxable_base := min base cap
  let tax_amount := round2 (taxable_base * rate)
  let cap_applied := if cap < base then some cap else Option.none
  (.hut, some { tax_type := .hut, name := "NC Highway Use Tax", base := taxable_base,
                rate := rate, amount := tax_amount, cap_applied := cap_applied })

/-- `calculate_excise` (phases/p4_tax_cipher.rs); always `Ok`, total here. -/
def calculate_excise (deal : ProfileLoadedDeal) (base : ℚ) : TaxType × Option SpecialTax :=
  let rules := deal.profiles.primary_rules
  let rate := rules.rates.excise_rate.getD (0.05 : ℚ)
  let tax_amount := round2 (base * rate)
  (.excise, some { tax_type := .excise, name := "WV Privilege Tax", base := base,
                   rate := rate, amount := tax_amount, cap_applied := Option.none })

/-- `calculate_reciprocity_credit` (phases/p4_tax_cipher.rs); always `Ok`,
total here.  Note that the theoretical transaction-state tax is computed on
`input.vehicle_price`, not on the built tax base (the source marks this
"Simplified"). -/
def calculate_reciprocity_credit (deal : ProfileLoadedDeal) (primary_tax : ℚ) : ℚ :=
  let jurisdiction := deal.deal.jurisdiction
  if !jurisdiction.is_interstate then 0
  else
    match deal.profiles.secondary_rules with
    | Option.none => 0
    | some secondary_rules =>
      let primary_rules := deal.profiles.primary_rules
      let reciprocity := primary_rules.reciprocity
      if !reciprocity.offers_reciprocity then 0
      else
        let input := deal.deal.deal.input.inner
        let base := input.vehicle_price
        let transaction_rate := secondary_rules.rates.default_combined_rate
        let transaction_tax := round2 (base * transaction_rate)
        if secondary_rules.state_code ∈ reciprocity.full_credit_states then
          min transaction_tax primary_tax
        else
          match reciprocity.max_credit_rate with
          | some max_rate =>
            let max_credit := round2 (base * max_rate)
            min (min transaction_tax max_credit) primary_tax
          | Option.none => min transaction_tax primary_tax

/-- `validate_tax_invariants` (phases/p4_tax_cipher.rs). -/
def validate_tax_invariants (tax : TaxCalculation) : Except UdcError Unit :=
  if tax.tax_base < 0 then .error (.calculation "P4_TAX")
  else if tax.net_tax < 0 then .error (.calculation "P4_TAX")
  else if tax.primary_tax < tax.reciprocity_credit then .error (.calculation "P4_TAX")
  else if (0.02 : ℚ) < qabs (((tax.components.map (fun c => c.amount)).sum) - tax.primary_tax) then
    .error (.calculation "P4_TAX")
  else .ok ()

/-- The `TaxCalculation` value that `calculate_tax`
(phases/p4_tax_cipher.rs) constructs before validating it (the source builds
this value inline in `calculate_tax`; it is named here so that facts about
the constructed value can be stated). -/
def calculate_tax_value (deal : ProfileLoadedDeal) : TaxCalculation :=
  let rules := deal.profiles.primary_rules
  let built := build_tax_base deal
  let base_breakdown := built.1
  let initial_base := built.2
  let special :=
    match rules.tax_type with
    | .tavt => calculate_tavt deal initial_base
    | .hut => calculate_hut deal initial_base
    | .excise => calculate_excise deal initial_base
    | .none => ((.none : TaxType), (Option.none : Option SpecialTax))
    | .sales => (rules.tax_type, (Option.none : Option SpecialTax))
    | .use => (rules.tax_type, (Option.none : Option SpecialTax))
  let tax_type := special.1
  let special_tax := special.2
  let main : List TaxComponent × ℚ × ℚ :=
    if tax_type = .none then ([], 0, 0)
    else
      match special_tax with
      | some st =>
        ([{ name := st.name, level := .special, rate := st.rate, base := st.base,
            amount := st.amount }], st.amount, st.rate)
      | Option.none => calculate_standard_tax deal initial_base
  let components := main.1
  let primary_tax := main.2.1
  let effective_rate := main.2.2
  let reciprocity_credit := calculate_reciprocity_credit deal primary_tax
  let net_tax := max (primary_tax - reciprocity_credit) 0
  { tax_base := initial_base
    base_breakdown := base_breakdown
    primary_tax := primary_tax
    tax_type := tax_type
    effective_rate := effective_rate
    reciprocity_credit := reciprocity_credit
    net_tax := net_tax
    components := components
    special_tax := special_tax }

/-- `calculate_tax` (phases/p4_tax_cipher.rs), P4 of the pipeline: build the
tax calculation, validate its invariants, and return it (or the validation
error). -/
def calculate_tax (deal : ProfileLoadedDeal) : Except UdcError TaxComputedDeal :=
  let tax := calculate_tax_value deal
  match validate_tax_invariants tax with
  | .error e => .error e
  | .ok _ => .ok { deal := deal, tax := tax }

/-! ## P5 - Structure cipher (phases/p5_structure.rs) -/

/-- `CashStructure` (phases/p5_structure.rs). -/
structure CashStructure where
  selling_price : ℚ
  total_fees : ℚ
  fi_products : ℚ
  trade_credit : ℚ
  rebates : ℚ
  sales_tax : ℚ
  government_fees : ℚ
  total_cash_price : ℚ
deriving DecidableEq, Inhabited

/-- `FinanceStructure` (phases/p5_structure.rs). -/
structure FinanceStructure where
  selling_price : ℚ
  taxable_fees : ℚ
  non_taxable_fees : ℚ
  fi_products_financed : ℚ
  sales_tax : ℚ
  cash_down : ℚ
  trade_credit : ℚ
  rebates : ℚ
  negative_equity : ℚ
  amount_financed : ℚ
  apr : ℚ
  term_months : ℕ
  monthly_payment : ℚ
  total_of_payments : ℚ
  finance_charge : ℚ
  total_sale_price : ℚ
deriving DecidableEq, Inhabited

/-- `LeaseStructure` (phases/p5_structure.rs). -/
structure LeaseStructure where
  msrp : ℚ
  selling_price : ℚ
  capitalized_fees : ℚ
  capitalized_fi_products : ℚ
  capitalized_tax : ℚ
  gross_cap_cost : ℚ
  cash_down : ℚ
  trade_credit : ℚ
  rebates : ℚ
  total_cap_reduction : ℚ
  adjusted_cap_cost : ℚ
  residual_percentage : ℚ
  residual_value : ℚ
  money_factor : ℚ
  equivalent_apr : ℚ
  term_months : ℕ
  depreciation : ℚ
  monthly_depreciation : ℚ
  rent_charge : ℚ
  monthly_rent_charge : ℚ
  base_monthly_payment : ℚ
  monthly_tax : ℚ
  total_monthly_payment : ℚ
  first_payment : ℚ
  security_deposit : ℚ
  acquisition_fee_upfront : ℚ
  upfront_tax : ℚ
  due_at_signing : ℚ
  total_base_payments : ℚ
  total_tax : ℚ
  total_lease_cost : ℚ
  lease_tax_mode : LeaseTaxMode
deriving DecidableEq, Inhabited

/-- `DealStructure` (phases/p5_structure.rs). -/
inductive DealStructure where
  | cash (s : CashStructure)
  | finance (s : FinanceStructure)
  | lease (s : LeaseStructure)
deriving DecidableEq, Inhabited

/-- `StructuredDeal` (phases/p5_structure.rs); the source field `structure`
is renamed `deal_structure` because `structure` is a Lean keyword. -/
structure StructuredDeal where
  deal : TaxComputedDeal
  deal_structure : DealStructure
deriving DecidableEq, Inhabited

/-- `power_decimal` (phases/p5_structure.rs): binary exponentiation; on exact
rationals this is exactly `base ^ exp`. -/
def power_decimal (base : ℚ) (exp : ℕ) : ℚ := base ^ exp

/-- `calculate_loan_payment` (phases/p5_structure.rs).  Returns
(monthly payment, total of payments, finance charge). -/
def calculate_loan_payment (principal apr : ℚ) (term_months : ℕ) :
    Except UdcError (ℚ × ℚ × ℚ) :=
  if principal ≤ 0 then .ok (0, 0, 0)
  else
    let n : ℚ := term_months
    if apr = 0 then
      let payment := round2 (principal / n)
      .ok (payment, payment * n, 0)
    else
      let r := apr / 12
      let one_plus_r_n := power_decimal (1 + r) term_months
      let numerator := principal * r * one_plus_r_n
      let denominator := one_plus_r_n - 1
      if denominator = 0 then .error (.calculation "P5_STRUCTURE")
      else
        let payment := round2 (numerator / denominator)
        let total_of_payments := payment * n
        .ok (payment, round2 total_of_payments, round2 (total_of_payments - principal))

/-- `build_cash_structure` (phases/p5_structure.rs); always `Ok` in the
source, total here. -/
def build_cash_structure (deal : TaxComputedDeal) : CashStructure :=
  let input := deal.deal.deal.deal.input.inner
  let normalized := deal.deal.deal.deal.input
  let tax := deal.tax
  let selling_price := input.vehicle_price
  let total_fees := input.fees.total_dealer_fees
  let government_fees := input.fees.total_government_fees
  let fi_products := normalized.total_taxable_products + normalized.total_non_taxable_products
  let trade_credit := max normalized.net_trade 0
  let rebates := normalized.total_rebates
  let sales_tax := tax.net_tax
  let total_cash_price := selling_price + total_fees + government_fees
    + fi_products + sales_tax - trade_credit - rebates
  { selling_price := selling_price
    total_fees := total_fees
    fi_products := fi_products
    trade_credit := trade_credit
    rebates := rebates
    sales_tax := sales_tax
    government_fees := government_fees
    total_cash_price := round2 total_cash_price }

/-- `build_finance_structure` (phases/p5_structure.rs). -/
def build_finance_structure (deal : TaxComputedDeal) :
    Except UdcError FinanceStructure :=
  let input := deal.deal.deal.deal.input.inner
  let normalized := deal.deal.deal.deal.input
  let tax := deal.tax
  match input.finance_params with
  | Option.none => .error (.calculation "P5_STRUCTURE")
  | some finance_params =>
    let selling_price := input.vehicle_price
    let taxable_fees := input.fees.total_dealer_fees
    let non_taxable_fees := input.fees.total_government_fees
    let fi_products_financed :=
      normalized.total_taxable_products + normalized.total_non_taxable_products
    let sales_tax := tax.net_tax
    let cash_down := input.cash_down
    let trade_credit := max normalized.net_trade 0
    let rebates := normalized.total_rebates
    let negative_equity := if normalized.net_trade < 0 then qabs normalized.net_trade else 0
    let gross_amount := selling_price + taxable_fees + non_taxable_fees
      + fi_products_financed + sales_tax + negative_equity
    let total_reductions := cash_down + trade_credit + rebates
    let amount_financed := round2 (max (gross_amount - total_reductions) 0)
    let apr := finance_params.apr
    let term_months := finance_params.term_months
    match calculate_loan_payment amount_financed apr term_months with
    | .error e => .error e
    | .ok payments =>
      let monthly_payment := payments.1
      let total_of_payments := payments.2.1
      let finance_charge := payments.2.2
      .ok { selling_price := selling_price
            taxable_fees := taxable_fees
            non_taxable_fees := non_taxable_fees
            fi_products_financed := fi_products_financed
            sales_tax := sales_tax
            cash_down := cash_down
            trade_credit := trade_credit
            rebates := rebates
            negative_equity := negative_equity
            amount_financed := amount_financed
            apr := apr
            term_months := term_months
            monthly_payment := monthly_payment
            total_of_payments := total_of_payments
            finance_charge := finance_charge
            total_sale_price := amount_financed + finance_charge + cash_down }

/-- `calculate_capitalizable_fees` (phases/p5_structure.rs). -/
def calculate_capitalizable_fees (fees : DealFees) (params : LeaseParams) : ℚ :=
  fees.doc_fee
    + (if params.cap_acquisition_fee then fees.acquisition_fee else 0)
    + fees.destination_fee

/-- `build_lease_structure` (phases/p5_structure.rs).  Note that the total
depreciation is the raw difference `adjusted_cap_cost - residual_value`, with
no clamp at zero. -/
def build_lease_structure (deal : TaxComputedDeal) :
    Except UdcError LeaseStructure :=
  let input := deal.deal.deal.deal.input.inner
  let normalized := deal.deal.deal.deal.input
  let rules := deal.deal.profiles.primary_rules
  match input.lease_params with
  | Option.none => .error (.calculation "P5_STRUCTURE")
  | some lease_params =>
    let lease_tax_mode := rules.lease_tax_mode.getD .monthlyPayment
    let msrp := input.vehicle_price
    let selling_price := input.vehicle_price
    let capitalized_fees := calculate_capitalizable_fees input.fees lease_params
    let capitalized_fi_products := (input.products.map (fun p => p.price)).sum
    let tax_triple : ℚ × ℚ × ℚ :=
      match lease_tax_mode with
      | .capCostUpfront =>
        let tax_base := selling_price + capitalized_fees + capitalized_fi_products
        let tax := round2 (tax_base * rules.rates.default_combined_rate)
        (tax, tax, 0)
      | .monthlyPayment => (0, 0, rules.rates.default_combined_rate)
      | _ => (0, 0, 0)
    let capitalized_tax := tax_triple.1
    let upfront_tax := tax_triple.2.1
    let monthly_tax_rate := tax_triple.2.2
    let gross_cap_cost := selling_price + capitalized_fees
      + capitalized_fi_products + capitalized_tax
    let cash_down := input.cash_down + lease_params.cap_cost_reduction
    let trade_credit := max normalized.net_trade 0
    let rebates := normalized.total_rebates
    let total_cap_reduction := cash_down + trade_credit + rebates
    let adjusted_cap_cost := round2 (max (gross_cap_cost - total_cap_reduction) 0)
    let residual_percentage := lease_params.residual_percent
    let residual_value := round2 (msrp * residual_percentage)
    let money_factor := lease_params.money_factor
    let equivalent_apr := money_factor * 2400
    let term_months := lease_params.term_months
    let term : ℚ := term_months
    let depreciation := adjusted_cap_cost - residual_value
    let monthly_depreciation := round2 (depreciation / term)
    let rent_charge := round2 ((adjusted_cap_cost + residual_value) * money_factor * term)
    let monthly_rent_charge := round2 (rent_charge / term)
    let base_monthly_payment := monthly_depreciation + monthly_rent_charge
    let monthly_tax := round2 (base_monthly_payment * monthly_tax_rate)
    let total_monthly_payment := base_monthly_payment + monthly_tax
    let first_payment := total_monthly_payment
    let security_deposit := lease_params.security_deposit.getD 0
    let acquisition_fee_upfront :=
      if !lease_params.cap_acquisition_fee then input.fees.acquisition_fee else 0
    let due_at_signing := first_payment + cash_down + security_deposit
      + acquisition_fee_upfront + upfront_tax
    let total_base_payments := base_monthly_payment * term
    let total_tax :=
      if lease_tax_mode = .monthlyPayment then monthly_tax * term else upfront_tax
    .ok { msrp := msrp
          selling_price := selling_price
          capitalized_fees := capitalized_fees
          capitalized_fi_products := capitalized_fi_products
          capitalized_tax := capitalized_tax
          gross_cap_cost := gross_cap_cost
          cash_down := cash_down
          trade_credit := trade_credit
          rebates := rebates
          total_cap_reduction := total_cap_reduction
          adjusted_cap_cost := adjusted_cap_cost
          residual_percentage := residual_percentage
          residual_value := residual_value
          money_factor := money_factor
          equivalent_apr := equivalent_apr
          term_months := term_months
          depreciation := depreciation
          monthly_depreciation := monthly_depreciation
          rent_charge := rent_charge
          monthly_rent_charge := monthly_rent_charge
          base_monthly_payment := base_monthly_payment
          monthly_tax := monthly_tax
          total_monthly_payment := total_monthly_payment
          first_payment := first_payment
          security_deposit := security_deposit
          acquisition_fee_upfront := acquisition_fee_upfront
          upfront_tax := upfront_tax
          due_at_signing := due_at_signing
          total_base_payments := total_base_payments
          total_tax := total_tax
          total_lease_cost := total_base_payments + total_tax + cash_down
          lease_tax_mode := lease_tax_mode }

/-- `build_structure` (phases/p5_structure.rs), P5 of the pipeline. -/
def build_structure (deal : TaxComputedDeal) : Except UdcError StructuredDeal :=
  match deal.deal.deal.deal.input.inner.deal_type with
  | .cash => .ok { deal := deal, deal_structure := .cash (build_cash_structure deal) }
  | .finance =>
    match build_finance_structure deal with
    | .error e => .error e
    | .ok s => .ok { deal := deal, deal_structure := .finance s }
  | .lease =>
    match build_lease_structure deal with
    | .error e => .error e
    | .ok s => .ok { deal := deal, deal_structure := .lease s }

/-! ## P6 - Cashflow (phases/p6_cashflow.rs) -/

/-- `is_leap_year` (phases/p6_cashflow.rs). -/
def is_leap_year (year : Int) : Bool :=
  (year % 4 = 0 ∧ year % 100 ≠ 0) ∨ year % 400 = 0

/-- `days_in_month` (phases/p6_cashflow.rs). -/
def days_in_month (year : Int) (month : Int) : Int :=
  if month = 1 ∨ month = 3 ∨ month = 5 ∨ month = 7 ∨ month = 8 ∨ month = 10 ∨ month = 12
  then 31
  else if month = 4 ∨ month = 6 ∨ month = 9 ∨ month = 11 then 30
  else if month = 2 then (if is_leap_year year then 29 else 28)
  else 30

/-- Successor day in the calendar, rolling over months and years; used to
embed chrono day arithmetic. -/
def next_day (d : Date) : Date :=
  if d.day < days_in_month d.year d.month then { d with day := d.day + 1 }
  else if d.month < 12 then { d with month := d.month + 1, day := 1 }
  else { year := d.year + 1, month := 1, day := 1 }

/-- `add_days` (phases/p6_cashflow.rs): `date + Duration::days(days)`,
embedded as iterated calendar increment (only ever called with 30). -/
def add_days (date : Date) (days : ℕ) : Date :=
  match days with
  | 0 => date
  | n + 1 => next_day (add_days date n)

/-- `add_months` (phases/p6_cashflow.rs); the source is only called with a
non-negative month count, where Rust truncating division agrees with
mathematical division. -/
def add_months (date : Date) (months : ℕ) : Date :=
  let year := date.year + (date.month + months - 1) / 12
  let month := (date.month + months - 1) % 12 + 1
  let day := min date.day (days_in_month year month)
  { year := year, month := month, day := day }

/-- `AmortizationEntry` (types/output.rs). -/
structure AmortizationEntry where
  payment_number : ℕ
  due_date : Date
  payment_amount : ℚ
  principal : ℚ
  interest : ℚ
  remaining_balance : ℚ
deriving DecidableEq, Inhabited

/-- `FinanceCashflow` (phases/p6_cashflow.rs). -/
structure FinanceCashflow where
  first_payment_date : Date
  payment_day : Int
  schedule : List AmortizationEntry
  total_interest : ℚ
  odd_days_interest : ℚ
deriving DecidableEq, Inhabited

/-- `LeasePaymentEntry` (phases/p6_cashflow.rs). -/
structure LeasePaymentEntry where
  payment_number : ℕ
  due_date : Date
  base_payment : ℚ
  tax : ℚ
  total_payment : ℚ
deriving DecidableEq, Inhabited

/-- `LeaseCashflow` (phases/p6_cashflow.rs). -/
structure LeaseCashflow where
  first_payment_date : Date
  payment_day : Int
  schedule : List LeasePaymentEntry
  total_payments : ℚ
deriving DecidableEq, Inhabited

/-- `Cashflow` (phases/p6_cashflow.rs). -/
inductive Cashflow where
  | finance (c : FinanceCashflow)
  | lease (c : LeaseCashflow)
deriving DecidableEq, Inhabited

/-- `CashflowDeal` (phases/p6_cashflow.rs). -/
structure CashflowDeal where
  deal : StructuredDeal
  cashflow : Option Cashflow
deriving DecidableEq, Inhabited

/-- The amortization loop of `generate_finance_cashflow`
(phases/p6_cashflow.rs).  `num` is the 1-indexed payment number of the next
entry and `k` the number of entries still to emit, so with `num = 1` and
`k = term` the source condition `payment_num == term_months` for the final
payment is exactly `k = 1` here. -/
def amort_schedule (payment rate : ℚ) (first_payment_date : Date) :
    ℕ → ℕ → ℚ → List AmortizationEntry
  | _, 0, _ => []
  | num, k + 1, remaining =>
    let interest := round2 (remaining * rate)
    let principal := if k = 0 then remaining else max (payment - interest) 0
    let new_balance := max (remaining - principal) 0
    { payment_number := num
      due_date := add_months first_payment_date (num - 1)
      payment_amount := if k = 0 then principal + interest else payment
      principal := principal
      interest := interest
      remaining_balance := new_balance }
      :: amort_schedule payment rate first_payment_date (num + 1) k new_balance

/-- `generate_finance_cashflow` (phases/p6_cashflow.rs); always `Ok` in the
source, total here.  The running interest accumulator of the source equals
the sum over the emitted entries. -/
def generate_finance_cashflow (today : Date) (deal : StructuredDeal)
    (structure_ : FinanceStructure) : FinanceCashflow :=
  let input := deal.deal.deal.deal.deal.input
  let deal_date := input.inner.deal_date.getD today
  let first_payment_date := input.inner.first_payment_date.getD (add_days deal_date 30)
  let schedule := amort_schedule structure_.monthly_payment (structure_.apr / 12)
    first_payment_date 1 structure_.term_months structure_.amount_financed
  { first_payment_date := first_payment_date
    payment_day := first_payment_date.day
    schedule := schedule
    total_interest := (schedule.map (fun e => e.interest)).sum
    odd_days_interest := 0 }

/-- `generate_lease_cashflow` (phases/p6_cashflow.rs); always `Ok` in the
source, total here. -/
def generate_lease_cashflow (today : Date) (deal : StructuredDeal)
    (structure_ : LeaseStructure) : LeaseCashflow :=
  let input := deal.deal.deal.deal.deal.input
  let deal_date := input.inner.deal_date.getD today
  let first_payment_date := input.inner.first_payment_date.getD deal_date
  let schedule := (List.range structure_.term_months).map (fun i =>
    { payment_number := i + 1
      due_date := if i = 0 then first_payment_date else add_months first_payment_date i
      base_payment := structure_.base_monthly_payment
      tax := structure_.monthly_tax
      total_payment := structure_.total_monthly_payment })
  { first_payment_date := first_payment_date
    payment_day := first_payment_date.day
    schedule := schedule
    total_payments := (schedule.map (fun e => e.total_payment)).sum }

/-- `generate_cashflow` (phases/p6_cashflow.rs), P6 of the pipeline; always
`Ok` in the source, total here. -/
def generate_cashflow (today : Date) (deal : StructuredDeal) : CashflowDeal :=
  let cashflow :=
    match deal.deal_structure with
    | .cash _ => Option.none
    | .finance f => some (.finance (generate_finance_cashflow today deal f))
    | .lease l => some (.lease (generate_lease_cashflow today deal l))
  { deal := deal, cashflow := cashflow }

/-! ## P7 - Finalize: the checksum stub (phases/p7_finalize.rs) -/

/-- `rand_checksum` (phases/p7_finalize.rs): the source derives the
"checksum" from the wall clock, `SystemTime::now` nanoseconds since the epoch
cast to `u64`; `now_nanos` models that clock reading. -/
def rand_checksum (now_nanos : ℕ) : ℕ := now_nanos % 2 ^ 64

/-- The `(input_checksum, output_checksum)` pair that `build_audit_trace`
(phases/p7_finalize.rs) records: two successive `rand_checksum` calls at the
nanosecond timestamps at which they happen to run.  The pair depends only on
those timestamps, not on the deal being finalized. -/
def audit_trace_checksums (now1 now2 : ℕ) : ℕ × ℕ :=
  (rand_checksum now1, rand_checksum now2)

/-! ## Money factor conversions (types/money.rs)

`Rate` stores the fraction form (0.03 for 3 percent); `MoneyFactor` and
`Rate` are transparent wrappers over `Decimal`, embedded as plain rationals.
The divisions performed by both conversions are exact on the rationals
involved. -/

/-- `MoneyFactor::to_apr` (types/money.rs): `Rate::from_decimal(mf * 2400 / 100)`. -/
def MoneyFactor.to_apr (mf : ℚ) : ℚ := mf * 2400 / 100

/-- `MoneyFactor::from_apr` (types/money.rs): `apr.as_decimal() / 24`. -/
def MoneyFactor.from_apr (apr : ℚ) : ℚ := apr / 24

/-! ## Test fixtures and pipeline composition helpers

`run_to_tax` and `run_to_structure` compose the phases in the order of
`phases::execute_pipeline` (phases/mod.rs): P0, P1, P2, P3, P4, P5. -/

/-- Extract the payload of a successful `Except` (used to name the concrete
outputs of pipeline runs in closed statements). -/
def exOk {ε α : Type} [Inhabited α] (e : Except ε α) : α :=
  match e with
  | .ok a => a
  | .error _ => default

/-- Phases P0 through P4 in pipeline order. -/
def run_to_tax (today : Date) (input : DealInput) : Except UdcError TaxComputedDeal :=
  match normalize_deal_input today input with
  | .error e => .error e
  | .ok n => calculate_tax (load_profiles (resolve_jurisdiction (route_deal n)))

/-- Phases P0 through P5 in pipeline order. -/
def run_to_structure (today : Date) (input : DealInput) : Except UdcError StructuredDeal :=
  match run_to_tax today input with
  | .error e => .error e
  | .ok t => build_structure t

/-- A fixed deal date standing in for the system clock in test runs. -/
def t0 : Date := ⟨2024, 1, 15⟩

/-- Scenario 1 of the spec: Texas cash deal, price 30 000, taxable 299 doc
fee, no trade, no rebates, no products. -/
def c5_input : DealInput :=
  { deal_type := .cash
    vehicle_price := 30000
    fees := { doc_fee := 299 }
    home_state := .TX
    transaction_state := .TX
    customer := {} }

/-- The profile-loaded form of the Texas cash scenario (P0 through P3). -/
def c1_deal : ProfileLoadedDeal :=
  match normalize_deal_input t0 c5_input with
  | .error _ => default
  | .ok n => load_profiles (resolve_jurisdiction (route_deal n))

/-- The P4 output on the Texas cash scenario. -/
def c1_out : TaxComputedDeal := exOk (calculate_tax c1_deal)

/-! ## C3 -/

/-- C3: the spec requires two runs of the pipeline on identical inputs and
an identical rule corpus to produce byte-identical outputs, including the
checksums recorded in the audit trace.  The claim is right and the code is
wrong: `build_audit_trace` derives both checksums from `rand_checksum`, a
stub that returns the current `SystemTime::now` nanosecond reading, so two
runs of the same deal at distinct timestamps record different checksum
pairs.  This theorem evaluates the embedded checksum stub at two pairs of
timestamps one nanosecond apart: the recorded pairs differ although the
deal input (on which they do not even depend) is identical. -/
theorem c3_checksums_depend_on_clock :
    audit_trace_checksums 0 1 ≠ audit_trace_checksums 1 2 ∧
    rand_checksum 1000 ≠ rand_checksum 1001 := by
  decide

/-! ## C5 -/

/-- C5: Texas cash scenario: price 30 000, no trade, taxable 299 doc fee,
6.25 percent state plus 2 percent local additive rates (the built-in Texas
profile: state rate 0.0625, combined rate 0.0825).  The pipeline yields tax
base 30 299, primary and net tax 2 499.67, and total cash price 32 798.67,
exactly as the claim states. -/
theorem c5_texas_cash_scenario :
    (run_to_tax t0 c5_input).map
        (fun t => (t.tax.tax_base, t.tax.primary_tax, t.tax.net_tax))
      = .ok (30299, (249967 : ℚ)/100, (249967 : ℚ)/100) ∧
    (run_to_structure t0 c5_input).map
        (fun s => match s.deal_structure with
                  | .cash c => some c.total_cash_price
                  | _ => Option.none)
      = .ok (some ((3279867 : ℚ)/100)) ∧
    (texas_profile .cash).rates.state_rate = (0.0625 : ℚ) ∧
    (texas_profile .cash).rates.default_combined_rate - (texas_profile .cash).rates.state_rate
      = (0.02 : ℚ) := by
  decide

/-! ## C6 -/

/-- A deal whose governing profile sets `min_taxable_amount := 5000` while
the deal only supports a base of 1 000: Texas cash deal, price 1 000, no
fees, with the minimum-taxable floor added to the loaded profile (the rule
corpus is data, so the floor is exercised by constructing profile data that
sets it). -/
def c6_deal : ProfileLoadedDeal :=
  let input : DealInput :=
    { deal_type := .cash
      vehicle_price := 1000
      fees := {}
      home_state := .TX
      transaction_state := .TX
      customer := {} }
  match normalize_deal_input t0 input with
  | .error _ => default
  | .ok n =>
    let loaded := load_profiles (resolve_jurisdiction (route_deal n))
    { loaded with profiles := { loaded.profiles with
        primary_rules := { loaded.profiles.primary_rules with
          base_rules := { loaded.profiles.primary_rules.base_rules with
            min_taxable_amount := some 5000 } } } }

/-- C6 counterexample: on `c6_deal` the profile sets
`min_taxable_amount = 5000` and the base after credits and caps is 1 000,
below the floor, yet `build_tax_base` returns 1 000: P4 does not raise the
base to the minimum, refuting the claim at this concrete input. -/
theorem c6_min_taxable_counterexample :
    c6_deal.profiles.primary_rules.base_rules.min_taxable_amount = some 5000 ∧
    (build_tax_base c6_deal).2 = 1000 ∧ (1000 : ℚ) < 5000 := by
  decide

/-- Replace the `min_taxable_amount` of the governing profile of a loaded
deal (profile data is the input the claim quantifies over). -/
def set_min_taxable (d : ProfileLoadedDeal) (m : Option ℚ) : ProfileLoadedDeal :=
  { d with profiles := { d.profiles with
      primary_rules := { d.profiles.primary_rules with
        base_rules := { d.profiles.primary_rules.base_rules with
          min_taxable_amount := m } } } }

/-- C6 amended: `build_tax_base` never consults `min_taxable_amount`; the
tax base (and the whole breakdown) is the same whatever the floor is set to.
In particular P4 never raises the base to the configured minimum. -/
theorem c6_min_taxable_ignored (d : ProfileLoadedDeal) (m : Option ℚ) :
    build_tax_base (set_min_taxable d m) = build_tax_base d := by
  rfl

/-! ## C7 -/

/-- A rule profile with every per-fee taxability flag false (doc,
destination, registration, title; there is no flag for dealer handling in
`BaseRules` at all). -/
def c7_rules : RuleProfile :=
  { state_code := .TX
    mode := .cash
    tax_type := .sales
    rates := {}
    base_rules := { doc_fee_taxable := false, destination_taxable := false }
    ancillaries := {}
    reciprocity := {}
    meta := {} }

/-- Fees consisting of a single 500 dealer-handling fee. -/
def c7_fees : DealFees := { dealer_handling_fee := 500 }

/-- C7 counterexample: the rule profile has no per-fee flag for dealer
handling, and with every fee-taxability flag it does have set to false the
500 dealer-handling fee is still included in the taxable-fee total (which
would be 0 if inclusion required a rule-profile flag saying it is taxable).
This refutes the claim that the dealer-handling fee is included only when a
per-fee rule-profile flag marks it taxable. -/
theorem c7_dealer_handling_counterexample :
    c7_rules.base_rules.doc_fee_taxable = false ∧
    c7_rules.base_rules.destination_taxable = false ∧
    c7_rules.ancillaries.registration_taxable = false ∧
    c7_rules.ancillaries.title_fee_taxable = false ∧
    calculate_taxable_fees c7_fees c7_rules = 500 := by
  decide

/-- C7 amended: the dealer-handling fee is always included in the
taxable-fee total, unconditionally on the rule profile (doc and destination
fees are gated by their per-fee flags, registration and title by the
ancillary flags, extra fees by their own flag; `BaseRules` has no
dealer-handling flag). -/
theorem c7_dealer_handling_always_taxed (fees : DealFees) (rules : RuleProfile) :
    calculate_taxable_fees fees rules
      = calculate_taxable_fees { fees with dealer_handling_fee := 0 } rules
        + fees.dealer_handling_fee := by
  simp only [calculate_taxable_fees]
  ring

/-! ## C10 -/

/-- A deal input P0 accepts whose vehicle price rounds to zero: price 0.004
passes the pre-rounding validation `0 < price` and is then rounded to 0.00. -/
def c10_input : DealInput :=
  { deal_type := .cash
    vehicle_price := (0.004 : ℚ)
    fees := {}
    home_state := .TX
    transaction_state := .TX
    customer := {} }

/-- C10: normalization is not idempotent.  P0 accepts `c10_input`
(vehicle price 0.004), producing a normalized deal whose vehicle price is
0.00 - in violation of the invariant `vehicle_price > 0` that the source
docstring of `normalize_deal_input` says the phase enforces - and P0 applied
to that result rejects it, so `P0 (P0 x)` is an error while `P0 x`
succeeds. -/
theorem c10_normalize_not_idempotent :
    (normalize_deal_input t0 c10_input).isOk = true ∧
    (normalize_deal_input t0 c10_input).map (fun y => y.inner.vehicle_price)
      = .ok 0 ∧
    ((normalize_deal_input t0 c10_input).bind
        (fun y => normalize_deal_input t0 y.inner)).isOk = false := by
  decide

/-! ## C1 -/

/-- C1: whenever P4 returns successfully (necessary for the pipeline to
complete without error), the produced tax calculation satisfies all four
stated invariants: non-negative tax base, non-negative net tax, reciprocity
credit bounded by the primary tax, and net tax equal to
`max 0 (primary_tax - reciprocity_credit)`.  The first and third are
enforced by `validate_tax_invariants` (a violation aborts P4 with a
calculation error); the second and fourth hold by construction of
`net_tax`. -/
theorem c1_tax_invariants (d : ProfileLoadedDeal) (out : TaxComputedDeal)
    (h : calculate_tax d = .ok out) :
    0 ≤ out.tax.tax_base ∧ 0 ≤ out.tax.net_tax ∧
    out.tax.reciprocity_credit ≤ out.tax.primary_tax ∧
    out.tax.net_tax = max (out.tax.primary_tax - out.tax.reciprocity_credit) 0 := by
  have helim : validate_tax_invariants (calculate_tax_value d) = .ok () ∧
      out = { deal := d, tax := calculate_tax_value d } := by
    revert h
    show (match validate_tax_invariants (calculate_tax_value d) with
          | .error e => (.error e : Except UdcError TaxComputedDeal)
          | .ok _ => .ok { deal := d, tax := calculate_tax_value d }) = .ok out → _
    cases hval : validate_tax_invariants (calculate_tax_value d) with
    | error e => intro hh; exact Except.noConfusion hh
    | ok u => intro hh; rw [Except.ok.injEq] at hh; exact ⟨rfl, hh.symm⟩
  obtain ⟨hval, ho⟩ := helim
  subst ho
  have hnet : (calculate_tax_value d).net_tax
      = max ((calculate_tax_value d).primary_tax
          - (calculate_tax_value d).reciprocity_credit) 0 := rfl
  unfold validate_tax_invariants at hval
  split_ifs at hval with h1 h2 h3 h4
  exact ⟨not_lt.mp h1, not_lt.mp h2, not_lt.mp h3, hnet⟩

set_option maxHeartbeats 4000000 in
/-- C1 witness: the Texas cash scenario deal runs P4 successfully and the
invariants hold on its concrete output. -/
theorem c1_tax_invariants_witness :
    0 ≤ c1_out.tax.tax_base ∧ 0 ≤ c1_out.tax.net_tax ∧
    c1_out.tax.reciprocity_credit ≤ c1_out.tax.primary_tax ∧
    c1_out.tax.net_tax = max (c1_out.tax.primary_tax - c1_out.tax.reciprocity_credit) 0 :=
  c1_tax_invariants c1_deal c1_out (by decide)

/-! ## C2 -/

/-- The secondary-state rule data of the reciprocity scenario: transaction
state NV with a combined rate of 6.85 percent (the rule corpus is data; the
scenario fixes these rates). -/
def nevada_profile_685 : RuleProfile :=
  { state_code := .NV
    mode := .cash
    tax_type := .sales
    rates := { state_rate := (0.0685 : ℚ), default_combined_rate := (0.0685 : ℚ) }
    base_rules := {}
    ancillaries := {}
    reciprocity := {}
    meta := {} }

/-- An interstate deal, home TX and transaction NV at 6.85 percent, with the
given fee record: price 20 000, run through P0 to P3, with the secondary
profile replaced by the scenario NV data. -/
def mk_c2_deal (fees : DealFees) : ProfileLoadedDeal :=
  let input : DealInput :=
    { deal_type := .cash
      vehicle_price := 20000
      fees := fees
      home_state := .TX
      transaction_state := .NV
      customer := {} }
  match normalize_deal_input t0 input with
  | .error _ => default
  | .ok n =>
    let loaded := load_profiles (resolve_jurisdiction (route_deal n))
    { loaded with profiles :=
        { loaded.profiles with secondary_rules := some nevada_profile_685 } }

/-- C2 counterexample: on the reciprocity scenario deal with a taxable 299
doc fee, the computed tax base is 20 299 but the code computes the
secondary theoretical tax on the vehicle price (20 000), giving credit
1 370.00.  The claim says the secondary theoretical tax equals the computed
tax base times the secondary combined rate, which would give
round2(20 299 x 0.0685) = 1 390.48 and hence credit 1 390.48 (the primary
tax 1 674.67 does not bind): the code output differs from the claimed
value at this concrete input. -/
theorem c2_secondary_theoretical_counterexample :
    (calculate_tax (mk_c2_deal { doc_fee := 299 })).map
        (fun t => (t.tax.tax_base, t.tax.primary_tax, t.tax.reciprocity_credit))
      = .ok (20299, (167467 : ℚ)/100, 1370) ∧
    min (round2 ((20299 : ℚ) * (0.0685 : ℚ))) ((167467 : ℚ)/100) ≠ (1370 : ℚ) := by
  decide

/-- C2 amended: for an interstate deal whose primary state offers
reciprocity and whose secondary profile is present, under full credit
(secondary state listed in `full_credit_states`, or no `max_credit_rate`
configured, the default branch), the reciprocity credit is
`min (round2 (vehicle_price * secondary.default_combined_rate)) primary_tax`:
the secondary theoretical tax is computed on the vehicle price, not on the
computed tax base.  The full-credit scenario values (secondary theoretical
1 370.00, credit 1 370.00, net tax 280.00 on base 20 000) are checked in the
witness, where vehicle price and tax base coincide. -/
theorem c2_reciprocity_uses_vehicle_price
    (d : ProfileLoadedDeal) (sec : RuleProfile) (primary_tax : ℚ)
    (hint : d.deal.jurisdiction.is_interstate = true)
    (hsec : d.profiles.secondary_rules = some sec)
    (hoff : d.profiles.primary_rules.reciprocity.offers_reciprocity = true)
    (hfull : sec.state_code ∈ d.profiles.primary_rules.reciprocity.full_credit_states
      ∨ d.profiles.primary_rules.reciprocity.max_credit_rate = Option.none) :
    calculate_reciprocity_credit d primary_tax
      = min (round2 (d.deal.deal.input.inner.vehicle_price
          * sec.rates.default_combined_rate)) primary_tax := by
  simp only [calculate_reciprocity_credit, hint, hsec, hoff, Bool.not_true,
    Bool.false_eq_true, if_false]
  rcases hfull with hf | hf
  · simp [hf]
  · by_cases hmem : sec.state_code ∈ d.profiles.primary_rules.reciprocity.full_credit_states
    · simp [hmem]
    · simp [hmem, hf]

/-- C2 witness: the full-credit scenario.  Home TX (6.25 + 2 percent),
transaction NV (6.85 percent), vehicle price 20 000, no fees: the amended
theorem applies, the secondary theoretical tax is 1 370.00, the credit is
1 370.00, and the net tax is 280.00. -/
theorem c2_reciprocity_witness :
    calculate_reciprocity_credit (mk_c2_deal {}) 1650
      = min (round2 (((mk_c2_deal {}).deal.deal.input.inner.vehicle_price
          * nevada_profile_685.rates.default_combined_rate))) 1650 ∧
    round2 ((20000 : ℚ) * (0.0685 : ℚ)) = 1370 ∧
    (calculate_tax (mk_c2_deal {})).map
        (fun t => (t.tax.tax_base, t.tax.primary_tax, t.tax.reciprocity_credit, t.tax.net_tax))
      = .ok (20000, 1650, 1370, 280) :=
  ⟨c2_reciprocity_uses_vehicle_price (mk_c2_deal {}) nevada_profile_685 1650
      (by decide) (by decide) (by decide) (Or.inr (by decide)),
   by decide, by decide⟩

/-! ## C8 -/

/-- C8 amended: the total depreciation of every successfully built lease
structure is exactly `adjusted_cap_cost - residual_value`, the raw
difference with no clamp at zero (so it is negative whenever the residual
value exceeds the adjusted capitalized cost). -/
theorem c8_depreciation_raw_difference (d : TaxComputedDeal) (s : LeaseStructure)
    (h : build_lease_structure d = .ok s) :
    s.depreciation = s.adjusted_cap_cost - s.residual_value := by
  simp only [build_lease_structure] at h
  split at h
  next => exact Except.noConfusion h
  next p heq =>
    rw [Except.ok.injEq] at h
    subst h
    rfl

/-- Lease deal for the negative-depreciation scenario: TX lease, price
35 000, cash down 30 000, residual 55 percent, term 36, money factor
0.00125, no fees, run through P0 to P4. -/
def c8_input : DealInput :=
  { deal_type := .lease
    vehicle_price := 35000
    cash_down := 30000
    fees := {}
    home_state := .TX
    transaction_state := .TX
    customer := {}
    lease_params := some { term_months := 36, money_factor := (0.00125 : ℚ),
                           residual_percent := (0.55 : ℚ), annual_miles := 12000 } }

/-- The P4 output of the negative-depreciation lease scenario. -/
def c8_tax_deal : TaxComputedDeal := exOk (run_to_tax t0 c8_input)

/-- The lease structure built from it. -/
def c8_lease_structure : LeaseStructure := exOk (build_lease_structure c8_tax_deal)

/-- C8 counterexample: on the lease scenario the adjusted cap cost is 5 000
and the residual value 19 250, and the built structure records depreciation
-14 250: a negative depreciation, not `max 0 (adjusted - residual) = 0` as
the claim states. -/
theorem c8_negative_depreciation_counterexample :
    (build_lease_structure c8_tax_deal).map
        (fun l => (l.adjusted_cap_cost, l.residual_value, l.depreciation))
      = .ok (5000, 19250, -14250) ∧
    ((-14250 : ℚ) < 0) ∧ (-14250 : ℚ) ≠ max ((5000 : ℚ) - 19250) 0 := by
  decide

/-- C8 witness: the amended theorem applied to the concrete lease
scenario. -/
theorem c8_depreciation_raw_difference_witness :
    c8_lease_structure.depreciation
      = c8_lease_structure.adjusted_cap_cost - c8_lease_structure.residual_value :=
  c8_depreciation_raw_difference c8_tax_deal c8_lease_structure (by decide)

/-! ## C9 -/

/-- C9: money-factor conversions round-trip.  `from_apr (to_apr mf) = mf`
holds exactly (for every money factor, in particular every one with at most
6 decimal places, the stated hypothesis), and `to_apr (from_apr apr)` agrees
with `apr` at 4 decimal places (in the exact-rational model the composite is
the identity, so the rounded values agree). -/
theorem c9_money_factor_roundtrip :
    (∀ mf : ℚ, (∃ n : ℤ, mf = (n : ℚ) / 10 ^ 6) →
        MoneyFactor.from_apr (MoneyFactor.to_apr mf) = mf) ∧
    (∀ apr : ℚ, roundDp 4 (MoneyFactor.to_apr (MoneyFactor.from_apr apr))
        = roundDp 4 apr) := by
  constructor
  · intro mf _
    unfold MoneyFactor.from_apr MoneyFactor.to_apr
    rw [div_div]
    norm_num
  · intro apr
    have h : MoneyFactor.to_apr (MoneyFactor.from_apr apr) = apr := by
      unfold MoneyFactor.from_apr MoneyFactor.to_apr
      rw [div_mul_eq_mul_div, div_div]
      norm_num
    rw [h]

/-- C9 witness: the scenario values, money factor 0.00125 and APR 3 percent
(rate 0.03): both round trips at the concrete inputs. -/
theorem c9_money_factor_roundtrip_witness :
    MoneyFactor.from_apr (MoneyFactor.to_apr (0.00125 : ℚ)) = (0.00125 : ℚ) ∧
    roundDp 4 (MoneyFactor.to_apr (MoneyFactor.from_apr (0.03 : ℚ)))
      = roundDp 4 (0.03 : ℚ) :=
  ⟨c9_money_factor_roundtrip.1 (0.00125 : ℚ) ⟨1250, by norm_num⟩,
   c9_money_factor_roundtrip.2 (0.03 : ℚ)⟩

/-! ## C4 -/

theorem amort_schedule_zero (payment rate : ℚ) (fpd : Date) (num : ℕ) (rem : ℚ) :
    amort_schedule payment rate fpd num 0 rem = [] :=
  rfl

theorem amort_schedule_succ (payment rate : ℚ) (fpd : Date) (num k : ℕ) (rem : ℚ) :
    amort_schedule payment rate fpd num (k + 1) rem
      = { payment_number := num
          due_date := add_months fpd (num - 1)
          payment_amount :=
            if k = 0
            then (if k = 0 then rem else max (payment - round2 (rem * rate)) 0)
                + round2 (rem * rate)
            else payment
          principal := if k = 0 then rem else max (payment - round2 (rem * rate)) 0
          interest := round2 (rem * rate)
          remaining_balance :=
            max (rem - (if k = 0 then rem else max (payment - round2 (rem * rate)) 0)) 0 }
        :: amort_schedule payment rate fpd (num + 1) k
            (max (rem - (if k = 0 then rem else max (payment - round2 (rem * rate)) 0)) 0) :=
  rfl

theorem amort_schedule_length (payment rate : ℚ) (fpd : Date) :
    ∀ (k num : ℕ) (rem : ℚ), (amort_schedule payment rate fpd num k rem).length = k := by
  intro k
  induction k with
  | zero => intro num rem; rfl
  | succ k ih =>
    intro num rem
    rw [amort_schedule_succ, List.length_cons, ih]

theorem amort_schedule_last_balance (payment rate : ℚ) (fpd : Date) :
    ∀ (k num : ℕ) (rem : ℚ) (dflt : AmortizationEntry), 0 < k →
      ((amort_schedule payment rate fpd num k rem).getLastD dflt).remaining_balance = 0 := by
  intro k
  induction k with
  | zero => intro num rem dflt hk; exact absurd hk (lt_irrefl 0)
  | succ k ih =>
    intro num rem dflt _
    cases k with
    | zero =>
      rw [amort_schedule_succ, amort_schedule_zero]
      simp [sub_self]
    | succ k2 =>
      rw [amort_schedule_succ, List.getLastD_cons]
      exact ih (num + 1) _ _ (Nat.succ_pos _)

theorem amort_schedule_principal_sum (payment rate : ℚ) (fpd : Date) :
    ∀ (k num : ℕ) (rem : ℚ), 0 < k →
      rem ≤ ((amort_schedule payment rate fpd num k rem).map (fun e => e.principal)).sum := by
  intro k
  induction k with
  | zero => intro num rem hk; exact absurd hk (lt_irrefl 0)
  | succ k ih =>
    intro num rem _
    cases k with
    | zero =>
      rw [amort_schedule_succ, amort_schedule_zero]
      simp
    | succ k2 =>
      rw [amort_schedule_succ]
      simp only [List.map_cons, List.sum_cons, Nat.succ_ne_zero, if_false]
      have h1 := ih (num + 1) (max (rem - max (payment - round2 (rem * rate)) 0) 0)
        (Nat.succ_pos _)
      have h2 : rem - max (payment - round2 (rem * rate)) 0
          ≤ max (rem - max (payment - round2 (rem * rate)) 0) 0 := le_max_left _ _
      have h3 : (0 : ℚ) ≤ max (payment - round2 (rem * rate)) 0 := le_max_right _ _
      linarith

/-- C4 amended: for every finance structure with a positive amount financed
and at least one payment, the generated amortization schedule has exactly
`term_months` entries and its final entry has remaining balance exactly 0;
the sum of the principal column is at least the amount financed, but (unlike
the claim) it is not within 0.02 of it in general - see the
counterexample, where the gap is 0.33. -/
theorem c4_amortization_schedule (today : Date) (d : StructuredDeal) (s : FinanceStructure)
    (_hAF : 0 < s.amount_financed) (hterm : 1 ≤ s.term_months) :
    (generate_finance_cashflow today d s).schedule.length = s.term_months ∧
    ((generate_finance_cashflow today d s).schedule.getLastD default).remaining_balance = 0 ∧
    s.amount_financed
      ≤ (((generate_finance_cashflow today d s).schedule.map (fun e => e.principal)).sum) := by
  refine ⟨?_, ?_, ?_⟩
  · exact amort_schedule_length _ _ _ _ _ _
  · exact amort_schedule_last_balance _ _ _ _ _ _ _ hterm
  · exact amort_schedule_principal_sum _ _ _ _ _ _ hterm

/-- Finance deal whose amortization drifts: Montana (no tax), price 100.50,
cash down 100, APR 0, term 84, so the amount financed is 0.50 and the
rounded level payment is 0.01. -/
def c4_input : DealInput :=
  { deal_type := .finance
    vehicle_price := (100.50 : ℚ)
    cash_down := 100
    fees := {}
    home_state := .MT
    transaction_state := .MT
    customer := {}
    finance_params := some { term_months := 84, apr := 0 } }

/-- The structured form of the drifting finance deal (P0 through P5). -/
def c4_structured : StructuredDeal := exOk (run_to_structure t0 c4_input)

/-- Its finance structure. -/
def c4_finance_structure : FinanceStructure :=
  match c4_structured.deal_structure with
  | .finance f => f
  | _ => default

/-- The amount financed, monthly payment, schedule length, principal-column
sum, and final remaining balance of the generated schedule of the drifting
deal. -/
def c4_schedule_info : ℚ × ℚ × ℕ × ℚ × Option ℚ :=
  let cf := generate_finance_cashflow t0 c4_structured c4_finance_structure
  (c4_finance_structure.amount_financed, c4_finance_structure.monthly_payment,
   cf.schedule.length, (cf.schedule.map (fun e => e.principal)).sum,
   cf.schedule.getLast?.map (fun e => e.remaining_balance))

set_option maxRecDepth 8000 in
set_option maxHeartbeats 1000000 in
/-- C4 counterexample: the Montana zero-APR deal has amount financed 0.50
(positive) and every generated payment is 0.01; once the balance reaches
zero at payment 50, each later non-final payment still records principal
0.01, so the principal column sums to 0.83, which differs from the amount
financed by 0.33, beyond the claimed 0.02 (entry count and final balance
behave as claimed). -/
theorem c4_principal_sum_counterexample :
    c4_schedule_info = ((1 : ℚ)/2, (1 : ℚ)/100, 84, (83 : ℚ)/100, some 0) ∧
    (0 : ℚ) < 1/2 ∧
    ¬ qabs ((83 : ℚ)/100 - 1/2) ≤ (0.02 : ℚ) := by
  decide

set_option maxRecDepth 8000 in
set_option maxHeartbeats 1000000 in
/-- C4 witness: the amended theorem applied to the concrete drifting deal:
84 entries, final balance 0, and principal sum at least the amount
financed. -/
theorem c4_amortization_schedule_witness :
    0 < c4_finance_structure.amount_financed ∧
    1 ≤ c4_finance_structure.term_months ∧
    ((generate_finance_cashflow t0 c4_structured c4_finance_structure).schedule.length
        = c4_finance_structure.term_months ∧
      ((generate_finance_cashflow t0 c4_structured
          c4_finance_structure).schedule.getLastD default).remaining_balance = 0 ∧
      c4_finance_structure.amount_financed
        ≤ (((generate_finance_cashflow t0 c4_structured
            c4_finance_structure).schedule.map (fun e => e.principal)).sum)) :=
  ⟨by decide, by decide,
   c4_amortization_schedule t0 c4_structured c4_finance_structure (by decide) (by decide)⟩
